import Mathlib

/-!
Shallow embedding of `src/index.ts` of willwillis/ttcamera: a Hono app with
three HTTP handlers (`POST /api/time-travel`, `GET /api/images/:filename`,
`GET /api/images`) plus the static `TIME_PERIODS` table.

External collaborators (the OpenAI client, the `Buffer` base64 decoder and
the R2 bucket binding) are passed to the handlers as explicit parameters,
mirroring how the worker receives them through `c.env` and imported modules.
Binary data is modelled as `List Nat` (byte lists).
-/

namespace TTCamera

/-- Binary payloads (Node `Buffer` contents). -/
abbrev Bin := List Nat

/-- `interface TimePeriod { id; name; prompt }` from `src/index.ts`. -/
structure TimePeriod where
  id : String
  name : String
  prompt : String
deriving DecidableEq, Repr

/-- The static `TIME_PERIODS` table from `src/index.ts` (lines 15-56). -/
def TIME_PERIODS : List TimePeriod := [
  { id := "prehistoric", name := "Prehistoric", prompt := "prehistoric era" },
  { id := "ancient-egypt", name := "Ancient Egypt", prompt := "ancient Egyptian civilization" },
  { id := "roman-empire", name := "Roman Empire", prompt := "ancient Roman civilization" },
  { id := "medieval", name := "Medieval", prompt := "medieval Europe" },
  { id := "renaissance", name := "Renaissance", prompt := "Renaissance period" },
  { id := "wild-west", name := "Wild West", prompt := "American Wild West era" },
  { id := "roaring-twenties", name := "1920s", prompt := "Roaring Twenties" },
  { id := "future", name := "Future (Year 3030)", prompt := "year 3030" }
]

/-- `GET /api/time-periods` returns the table as JSON (`c.json(TIME_PERIODS)`). -/
def timePeriodsHandler : List TimePeriod := TIME_PERIODS

/-- JavaScript falsiness of a JSON string field / environment variable:
`undefined` (absent) and the empty string are falsy. -/
def falsy : Option String → Bool
  | none => true
  | some s => s.isEmpty

/-- JS `\w` character class: `[A-Za-z0-9_]`. -/
def isWordChar (c : Char) : Bool :=
  (('a' ≤ c && c ≤ 'z') || ('A' ≤ c && c ≤ 'Z') || ('0' ≤ c && c ≤ '9') || c == '_')

/-- Strip a literal from the front of a character list; `none` when the
list does not start with the literal. -/
def stripLit : List Char → List Char → Option (List Char)
  | [], cs => some cs
  | _ :: _, [] => none
  | p :: ps, c :: cs => if c = p then stripLit ps cs else none

/-- `imageData.replace(/^data:image\/\w+;base64,/, "")` on the character
list: if the input starts with `data:image/`, then one or more word
characters, then `;base64,`, that whole prefix is removed; otherwise the
input is unchanged (the regex is anchored and `;` is not a word character,
so the greedy `\w+` never backtracks). -/
def stripDataUriPrefixL (cs : List Char) : List Char :=
  match stripLit "data:image/".data cs with
  | none => cs
  | some rest =>
    let word := rest.takeWhile isWordChar
    if word.isEmpty then cs
    else
      match stripLit ";base64,".data (rest.dropWhile isWordChar) with
      | none => cs
      | some after => after

/-- `imageData.replace(/^data:image\/\w+;base64,/, "")` as a `String` map. -/
def stripDataUriPrefix (s : String) : String :=
  ⟨stripDataUriPrefixL s.data⟩

/-- Fuel-based decimal digit rendering: with fuel larger than the number,
produces its decimal digit characters (most significant first). -/
def natDigitsF : Nat → Nat → List Char
  | 0, _ => []
  | fuel + 1, n =>
    if n < 10 then [Nat.digitChar n]
    else natDigitsF fuel (n / 10) ++ [Nat.digitChar (n % 10)]

/-- Decimal rendering of a natural number, as produced by the JS template
literal `${timestamp}` for a nonnegative integer. -/
def natDigits (n : Nat) : List Char :=
  natDigitsF (n + 1) n

/-- Decimal rendering as a string (JS `${timestamp}`). -/
def natToString (n : Nat) : String :=
  ⟨natDigits n⟩

/-- The generated storage key:
`` `timetravel-${period.id}-${timestamp}.png` `` (line 144). -/
def makeFilename (eraId : String) (timestamp : Nat) : String :=
  "timetravel-" ++ eraId ++ "-" ++ natToString timestamp ++ ".png"

/-- The prompt built at line 109 from the era descriptor. -/
def promptText (period : TimePeriod) : String :=
  "Transform the provided image into a photorealistic scene taking place in the "
    ++ period.prompt
    ++ ". **It is essential to retain the original subjects' identity, features, and the overall composition of the scene.** Modify the setting, clothing, and surrounding elements to accurately reflect the style and atmosphere of the "
    ++ period.prompt
    ++ ". The final image should clearly show the original subject transported to this different time period."

/-- The argument of `openai.images.edit` (lines 123-128). -/
structure EditRequest where
  model : String
  image : Bin
  prompt : String
  moderation : String
deriving DecidableEq, Repr

/-- One element of `result.data`; `b64_json` is optional. -/
structure ImageDatum where
  b64_json : Option String
deriving DecidableEq, Repr

/-- The OpenAI edit result: `data` may be absent (`!result.data`) or an
array whose first element is consulted. -/
structure EditResult where
  data : Option (List ImageDatum)
deriving DecidableEq, Repr

/-- A stored R2 object as consumed by the fetch handler: body bytes, the
stored `httpMetadata` content type (written into the response headers by
`writeHttpMetadata`), and `httpEtag`. -/
structure StoredObject where
  body : Bin
  contentType : String
  httpEtag : String
deriving DecidableEq, Repr

/-- One entry of `objects.objects` from `IMAGES_BUCKET.list()`. -/
structure ObjMeta where
  key : String
  size : Nat
  uploaded : Nat
deriving DecidableEq, Repr

/-- The R2 bucket binding: `put` may reject (storage error), `get` may
reject or return no object, `list` may reject. -/
structure Bucket where
  put : String → Bin → Except String Unit
  get : String → Except String (Option StoredObject)
  list : Except String (List ObjMeta)

/-- The JSON body of a successful `POST /api/time-travel` response
(always HTTP 200). -/
structure TransformSuccess where
  success : Bool
  image : String
  stored : Bool
  filename : Option String
  storageError : Option String
  timeperiod : TimePeriod
deriving DecidableEq, Repr

/-- A `POST /api/time-travel` response: either an error JSON body with an
HTTP status, or a success body. -/
inductive TransformResponse where
  | error (status : Nat) (error : String) (details : Option String)
  | success (body : TransformSuccess)
deriving DecidableEq, Repr

/-- The observable outcome of one transform request: the response, the
sequence of `openai.images.edit` calls issued, and the sequence of
`IMAGES_BUCKET.put` calls issued (key and bytes). -/
structure TransformOutcome where
  resp : TransformResponse
  edits : List EditRequest
  puts : List (String × Bin)
deriving DecidableEq, Repr

/-- `POST /api/time-travel` (lines 70-207). Parameters:
`timeperiod`/`imageData` are the parsed JSON body fields (`none` when the
field is absent), `apiKey` is `c.env.OPENAI_API_KEY`, `bucket` is
`c.env.IMAGES_BUCKET`, `b64decode` is `Buffer.from(·, 'base64')`, `edit`
is the OpenAI client call, and `now` is `Date.now()`. -/
def timeTravel (timeperiod imageData apiKey : Option String)
    (bucket : Option Bucket) (b64decode : String → Bin)
    (edit : EditRequest → Except String EditResult) (now : Nat) :
    TransformOutcome :=
  if falsy timeperiod || falsy imageData then
    ⟨.error 400 "Missing required parameters" none, [], []⟩
  else
    if falsy apiKey then
      ⟨.error 500 "OpenAI API key not configured"
        (some "Please add OPENAI_API_KEY to your environment variables"), [], []⟩
    else
      match TIME_PERIODS.find? (fun p => p.id == timeperiod.getD "") with
      | none => ⟨.error 400 "Invalid time period" none, [], []⟩
      | some period =>
        let base64Data := stripDataUriPrefix (imageData.getD "")
        let imageBuffer := b64decode base64Data
        let req : EditRequest :=
          { model := "gpt-image-1", image := imageBuffer,
            prompt := promptText period, moderation := "low" }
        match edit req with
        | .error msg =>
          ⟨.error 500 "Failed to generate image with OpenAI" (some msg), [req], []⟩
        | .ok result =>
          match result.data with
          | none =>
            -- `!result.data` throws, caught by the `openaiError` handler
            ⟨.error 500 "Failed to generate image with OpenAI"
              (some "OpenAI returned invalid response format"), [req], []⟩
          | some ds =>
            match ds.head? with
            | none =>
              -- `!result.data[0]` throws, caught by the `openaiError` handler
              ⟨.error 500 "Failed to generate image with OpenAI"
                (some "OpenAI returned invalid response format"), [req], []⟩
            | some first =>
              -- `if (result.data[0].b64_json)` is a JS truthiness test:
              -- an absent OR empty payload takes the no-image error branch
              if falsy first.b64_json then
                ⟨.error 500 "No image returned from OpenAI"
                  (some "The API response did not include image data"), [req], []⟩
              else
                let b64 := first.b64_json.getD ""
                match bucket with
                | none =>
                  ⟨.success { success := true,
                              image := "data:image/png;base64," ++ b64,
                              stored := false, filename := none,
                              storageError := none,
                              timeperiod := period }, [req], []⟩
                | some bk =>
                  let filename := makeFilename period.id now
                  let binaryData := b64decode b64
                  match bk.put filename binaryData with
                  | .ok _ =>
                    ⟨.success { success := true,
                                image := "/api/images/" ++ filename,
                                stored := true, filename := some filename,
                                storageError := none, timeperiod := period },
                      [req], [(filename, binaryData)]⟩
                  | .error msg =>
                    ⟨.success { success := true,
                                image := "data:image/png;base64," ++ b64,
                                stored := false, filename := none,
                                storageError := some msg, timeperiod := period },
                      [req], [(filename, binaryData)]⟩

/-- A `GET /api/images/:filename` response: a JSON error with a status, or
the object body with its headers. -/
inductive FetchResponse where
  | jsonError (status : Nat) (error : String) (details : Option String)
  | ok (body : Bin) (contentType : String) (etag : String) (cacheControl : String)
deriving DecidableEq, Repr

/-- `GET /api/images/:filename` (lines 210-245). -/
def getImage (bucket : Option Bucket) (filename : String) : FetchResponse :=
  match bucket with
  | none => .jsonError 500 "R2 bucket not configured" none
  | some bk =>
    match bk.get filename with
    | .error msg => .jsonError 500 "Failed to retrieve image" (some msg)
    | .ok none => .jsonError 404 "Image not found" none
    | .ok (some obj) =>
      .ok obj.body obj.contentType obj.httpEtag "public, max-age=31536000"

/-- One entry of the `images` array built by `GET /api/images`. -/
structure ImageEntry where
  key : String
  url : String
  size : Nat
  uploaded : Nat
deriving DecidableEq, Repr

/-- A `GET /api/images` response. -/
inductive ListResponse where
  | jsonError (status : Nat) (error : String) (details : Option String)
  | ok (images : List ImageEntry) (count : Nat)
deriving DecidableEq, Repr

/-- `GET /api/images` (lines 248-279). -/
def listImages (bucket : Option Bucket) : ListResponse :=
  match bucket with
  | none => .jsonError 500 "R2 bucket not configured" none
  | some bk =>
    match bk.list with
    | .error msg => .jsonError 500 "Failed to list images" (some msg)
    | .ok objs =>
      let images := objs.map (fun o =>
        { key := o.key, url := "/api/images/" ++ o.key,
                        size := o.size, uploaded := o.uploaded : ImageEntry })
      .ok images images.length

/-! ### Concrete stand-ins for the external collaborators, used in witnesses -/

/-- A concrete injective stand-in for `Buffer.from(·, 'base64')`. -/
def demoDecode : String → Bin := fun s => s.data.map Char.toNat

/-- An OpenAI client stub whose edit call succeeds with payload `"AAAA"`. -/
def demoEditA : EditRequest → Except String EditResult :=
  fun _ => .ok ⟨some [⟨some "AAAA"⟩]⟩

/-- An OpenAI client stub whose edit call succeeds with payload `"BBBB"`. -/
def demoEditB : EditRequest → Except String EditResult :=
  fun _ => .ok ⟨some [⟨some "BBBB"⟩]⟩

/-- A bucket whose writes always succeed and which holds nothing. -/
def okBucket : Bucket :=
  { put := fun _ _ => .ok (), get := fun _ => .ok none, list := .ok [] }

/-- A stored object used in the fetch-handler witness. -/
def demoObj : StoredObject := ⟨[1, 2, 3], "image/png", "etag-1"⟩

/-- A bucket holding exactly the key `a.png`, mapped to `demoObj`. -/
def demoFetchBucket : Bucket :=
  { put := fun _ _ => .ok (),
    get := fun k => if k = "a.png" then .ok (some demoObj) else .ok none,
    list := .ok [] }

/-- A bucket whose listing returns two objects. -/
def demoListBucket : Bucket :=
  { put := fun _ _ => .ok (), get := fun _ => .ok none,
    list := .ok [⟨"k1.png", 10, 111⟩, ⟨"k2.png", 20, 222⟩] }

/-! ### Helper lemmas on the string and digit functions -/

theorem stripLit_append (p cs : List Char) : stripLit p (p ++ cs) = some cs := by
  induction p with
  | nil => rfl
  | cons a as ih => simp [stripLit, ih]

theorem takeWhile_word_semi (w rest : List Char) (hw : w.all isWordChar = true) :
    (w ++ ';' :: rest).takeWhile isWordChar = w
      ∧ (w ++ ';' :: rest).dropWhile isWordChar = ';' :: rest := by
  induction w with
  | nil =>
    refine ⟨?_, ?_⟩ <;> simp [List.takeWhile, List.dropWhile, isWordChar]
  | cons a as ih =>
    simp only [List.all_cons, Bool.and_eq_true] at hw
    have h := ih hw.2
    refine ⟨?_, ?_⟩
    · simp [List.takeWhile_cons, hw.1, h.1]
    · simp [List.dropWhile_cons, hw.1, h.2]

theorem stripDataUriPrefixL_strips (sub rest : List Char)
    (h1 : sub ≠ []) (h2 : sub.all isWordChar = true) :
    stripDataUriPrefixL ("data:image/".data ++ (sub ++ (";base64,".data ++ rest)))
      = rest := by
  have hsplit : ";base64,".data ++ rest = ';' :: ("base64,".data ++ rest) := rfl
  rw [stripDataUriPrefixL, stripLit_append, hsplit]
  have h := takeWhile_word_semi sub ("base64,".data ++ rest) h2
  simp only [h.1, h.2]
  rw [if_neg (by simpa using h1)]
  have : (';' :: ("base64,".data ++ rest)) = ";base64,".data ++ rest := rfl
  rw [this, stripLit_append]

theorem digitChar_injOn : ∀ a < 10, ∀ b < 10,
    Nat.digitChar a = Nat.digitChar b → a = b := by decide

theorem digitChar_isDigit : ∀ a < 10, (Nat.digitChar a).isDigit = true := by decide

theorem natDigitsF_irrel : ∀ f f' n, n < f → n < f' →
    natDigitsF f n = natDigitsF f' n := by
  intro f
  induction f with
  | zero => intro f' n h _; omega
  | succ f ih =>
    intro f' n hf hf'
    cases f' with
    | zero => omega
    | succ f' =>
      simp only [natDigitsF]
      by_cases h10 : n < 10
      · rw [if_pos h10, if_pos h10]
      · rw [if_neg h10, if_neg h10]
        congr 1
        exact ih f' (n / 10) (by omega) (by omega)

theorem natDigits_eq (n : Nat) : natDigits n =
    if n < 10 then [Nat.digitChar n]
    else natDigits (n / 10) ++ [Nat.digitChar (n % 10)] := by
  by_cases h10 : n < 10
  · rw [natDigits, natDigitsF, if_pos h10, if_pos h10]
  · rw [natDigits, natDigitsF, if_neg h10, if_neg h10, natDigits]
    congr 1
    exact natDigitsF_irrel n (n / 10 + 1) (n / 10) (by omega) (by omega)

theorem natDigits_ne_nil (n : Nat) : natDigits n ≠ [] := by
  rw [natDigits_eq]
  split <;> simp

theorem natDigits_isDigit (n : Nat) : ∀ c ∈ natDigits n, c.isDigit = true := by
  induction n using Nat.strong_induction_on with
  | _ n ih =>
    rw [natDigits_eq]
    split
    · intro c hc
      simp only [List.mem_singleton] at hc
      subst hc
      exact digitChar_isDigit n (by omega)
    · intro c hc
      rcases List.mem_append.mp hc with hc | hc
      · exact ih (n / 10) (Nat.div_lt_self (by omega) (by omega)) c hc
      · simp only [List.mem_singleton] at hc
        subst hc
        exact digitChar_isDigit (n % 10) (Nat.mod_lt _ (by omega))

theorem natDigits_inj {m n : Nat} (h : natDigits m = natDigits n) : m = n := by
  induction m using Nat.strong_induction_on generalizing n with
  | _ m ih =>
    rw [natDigits_eq m, natDigits_eq n] at h
    by_cases hm : m < 10 <;> by_cases hn : n < 10
    · rw [if_pos hm, if_pos hn] at h
      simp only [List.cons.injEq] at h
      exact digitChar_injOn m hm n hn h.1
    · rw [if_pos hm, if_neg hn] at h
      have hl := congrArg List.length h
      simp only [List.length_singleton, List.length_append] at hl
      exact absurd (List.eq_nil_of_length_eq_zero (by omega))
        (natDigits_ne_nil (n / 10))
    · rw [if_neg hm, if_pos hn] at h
      have hl := congrArg List.length h
      simp only [List.length_singleton, List.length_append] at hl
      exact absurd (List.eq_nil_of_length_eq_zero (by omega))
        (natDigits_ne_nil (m / 10))
    · rw [if_neg hm, if_neg hn] at h
      obtain ⟨h1, h2⟩ := List.append_inj' h (by simp)
      have hmod : m % 10 = n % 10 := by
        refine digitChar_injOn _ (Nat.mod_lt _ (by omega)) _ (Nat.mod_lt _ (by omega)) ?_
        simpa using h2
      have hdiv : m / 10 = n / 10 :=
        ih (m / 10) (Nat.div_lt_self (by omega) (by omega)) h1
      omega

theorem append_dash_inj (a : List Char) : ∀ (b d d' : List Char),
    ('-' : Char) ∉ d → ('-' : Char) ∉ d' →
    a ++ '-' :: d = b ++ '-' :: d' → a = b ∧ d = d' := by
  induction a with
  | nil =>
    intro b d d' hd hd' h
    cases b with
    | nil =>
      simp only [List.nil_append, List.cons.injEq] at h
      exact ⟨rfl, h.2⟩
    | cons y ys =>
      simp only [List.nil_append, List.cons_append, List.cons.injEq] at h
      exact absurd (h.2 ▸ (List.mem_append_right ys (List.mem_cons_self '-' d'))) hd
  | cons x xs ih =>
    intro b d d' hd hd' h
    cases b with
    | nil =>
      simp only [List.nil_append, List.cons_append, List.cons.injEq] at h
      refine absurd ?_ hd'
      rw [← h.2]
      exact List.mem_append_right xs (List.mem_cons_self '-' d)
    | cons y ys =>
      simp only [List.cons_append, List.cons.injEq] at h
      obtain ⟨rfl, h2⟩ := h
      obtain ⟨hab, hdd⟩ := ih ys d d' hd hd' h2
      exact ⟨by rw [hab], hdd⟩

theorem makeFilename_data (e : String) (t : Nat) :
    (makeFilename e t).data
      = "timetravel-".data ++ (e.data ++ '-' :: (natDigits t ++ ".png".data)) := by
  simp only [makeFilename, natToString, String.data_append, List.append_assoc]
  rfl

theorem dash_not_mem_suffix (t : Nat) :
    ('-' : Char) ∉ natDigits t ++ ".png".data := by
  intro hc
  rcases List.mem_append.mp hc with hc | hc
  · exact absurd (natDigits_isDigit t _ hc) (by decide)
  · exact absurd hc (by decide)

/-- Helper: the per-entry facts behind the time-periods listing claim,
checked over the concrete eight-entry table. -/
theorem timePeriods_entries_ok :
    ∀ p ∈ TIME_PERIODS,
      ((TIME_PERIODS.filter (fun q => q.id == p.id)).length = 1
        ∧ p.name ≠ "" ∧ p.prompt ≠ "") := by decide

/-! ### Claims -/

/-- C1: for every transform request with valid fields, a configured
credential and a successful upstream image response carrying a (truthy,
i.e. non-empty) base64 payload, if the object store is unbound or the
storage write rejects, the handler still returns a success response whose
image field is `data:image/png;base64,<upstream payload>` and whose stored
field is `false`, rather than an error response. -/
theorem C1_storage_unavailable_inline_fallback
    (timeperiod imageData apiKey : Option String) (bucket : Option Bucket)
    (b64decode : String → Bin) (edit : EditRequest → Except String EditResult)
    (now : Nat) (period : TimePeriod) (result : EditResult)
    (ds : List ImageDatum) (first : ImageDatum) (b64 : String)
    (h1 : falsy timeperiod = false) (h2 : falsy imageData = false)
    (h3 : falsy apiKey = false)
    (h4 : TIME_PERIODS.find? (fun p => p.id == timeperiod.getD "") = some period)
    (h5 : edit { model := "gpt-image-1",
                 image := b64decode (stripDataUriPrefix (imageData.getD "")),
                 prompt := promptText period, moderation := "low" } = .ok result)
    (h6 : result.data = some ds) (h7 : ds.head? = some first)
    (h8 : first.b64_json = some b64) (h8' : b64.isEmpty = false)
    (h9 : bucket = none ∨ ∃ bk msg, bucket = some bk ∧
            bk.put (makeFilename period.id now) (b64decode b64) = .error msg) :
    ∃ body, (timeTravel timeperiod imageData apiKey bucket b64decode edit now).resp
        = .success body
      ∧ body.success = true
      ∧ body.image = "data:image/png;base64," ++ b64
      ∧ body.stored = false := by
  have hfb : falsy (some b64) = false := h8'
  rcases h9 with rfl | ⟨bk, msg, rfl, hput⟩
  · refine ⟨{ success := true, image := "data:image/png;base64," ++ b64,
              stored := false, filename := none, storageError := none,
              timeperiod := period }, ?_, rfl, rfl, rfl⟩
    simp [timeTravel, h1, h2, h3, h4, h5, h6, h7, h8, hfb]
  · refine ⟨{ success := true, image := "data:image/png;base64," ++ b64,
              stored := false, filename := none, storageError := some msg,
              timeperiod := period }, ?_, rfl, rfl, rfl⟩
    simp [timeTravel, h1, h2, h3, h4, h5, h6, h7, h8, hfb, hput]

/-- C1 witness: with the store unbound, a concrete valid request yields the
inline data-URI success response with `stored = false`. -/
theorem C1_witness :
    ∃ body, (timeTravel (some "medieval") (some "abc") (some "k") none
        demoDecode demoEditA 0).resp = .success body
      ∧ body.success = true
      ∧ body.image = "data:image/png;base64," ++ "AAAA"
      ∧ body.stored = false :=
  C1_storage_unavailable_inline_fallback (some "medieval") (some "abc") (some "k")
    none demoDecode demoEditA 0 ⟨"medieval", "Medieval", "medieval Europe"⟩
    ⟨some [⟨some "AAAA"⟩]⟩ [⟨some "AAAA"⟩] ⟨some "AAAA"⟩ "AAAA"
    rfl rfl rfl (by decide) rfl rfl rfl rfl rfl (Or.inl rfl)

/-- C2 counterexample: with the credential unavailable but a request field
missing, the handler returns the 400 missing-parameters error, not the 500
configuration error the claim demands for every input. -/
theorem C2_counterexample :
    (timeTravel none (some "x") none none demoDecode demoEditA 0).resp
      = .error 400 "Missing required parameters" none
    ∧ (timeTravel none (some "x") none none demoDecode demoEditA 0).resp
        ≠ .error 500 "OpenAI API key not configured"
            (some "Please add OPENAI_API_KEY to your environment variables") := by
  exact ⟨rfl, by decide⟩

/-- C2 (amended): when both request fields are present and non-empty, an
unavailable credential yields HTTP 500 with the configuration-error
message, regardless of whether the era identifier is known; a missing or
empty request field instead triggers the 400 missing-parameters response
before the credential is consulted. -/
theorem C2_missing_credential_500
    (timeperiod imageData apiKey : Option String) (bucket : Option Bucket)
    (b64decode : String → Bin) (edit : EditRequest → Except String EditResult)
    (now : Nat)
    (h1 : falsy timeperiod = false) (h2 : falsy imageData = false)
    (h3 : falsy apiKey = true) :
    timeTravel timeperiod imageData apiKey bucket b64decode edit now
      = ⟨.error 500 "OpenAI API key not configured"
          (some "Please add OPENAI_API_KEY to your environment variables"),
        [], []⟩ := by
  simp [timeTravel, h1, h2, h3]

/-- C2 witness: an unknown era identifier with a missing credential still
yields the 500 configuration error. -/
theorem C2_witness :
    timeTravel (some "atlantis") (some "x") none none demoDecode demoEditA 0
      = ⟨.error 500 "OpenAI API key not configured"
          (some "Please add OPENAI_API_KEY to your environment variables"),
        [], []⟩ :=
  C2_missing_credential_500 (some "atlantis") (some "x") none none
    demoDecode demoEditA 0 rfl rfl rfl

/-- C3: a valid request with a known era, configured credential, bound
store, a successful upstream response carrying a (truthy, i.e. non-empty)
base64 payload and a successful write performs exactly
one put under the generated key and returns the success body with the
relative fetch URL, `stored = true`, the filename
`timetravel-<eraId>-<digits>.png` (the timestamp part being a non-empty
digit string), and the era descriptor. -/
theorem C3_successful_store
    (timeperiod imageData apiKey : Option String) (bk : Bucket)
    (b64decode : String → Bin) (edit : EditRequest → Except String EditResult)
    (now : Nat) (period : TimePeriod) (result : EditResult)
    (ds : List ImageDatum) (first : ImageDatum) (b64 : String)
    (h1 : falsy timeperiod = false) (h2 : falsy imageData = false)
    (h3 : falsy apiKey = false)
    (h4 : TIME_PERIODS.find? (fun p => p.id == timeperiod.getD "") = some period)
    (h5 : edit { model := "gpt-image-1",
                 image := b64decode (stripDataUriPrefix (imageData.getD "")),
                 prompt := promptText period, moderation := "low" } = .ok result)
    (h6 : result.data = some ds) (h7 : ds.head? = some first)
    (h8 : first.b64_json = some b64) (h8' : b64.isEmpty = false)
    (h9 : bk.put (makeFilename period.id now) (b64decode b64) = .ok ()) :
    timeTravel timeperiod imageData apiKey (some bk) b64decode edit now
      = ⟨.success { success := true,
                    image := "/api/images/" ++ makeFilename period.id now,
                    stored := true, filename := some (makeFilename period.id now),
                    storageError := none, timeperiod := period },
          [{ model := "gpt-image-1",
             image := b64decode (stripDataUriPrefix (imageData.getD "")),
             prompt := promptText period, moderation := "low" }],
          [(makeFilename period.id now, b64decode b64)]⟩
    ∧ makeFilename period.id now
        = "timetravel-" ++ period.id ++ "-" ++ natToString now ++ ".png"
    ∧ (natToString now).data ≠ []
    ∧ (∀ c ∈ (natToString now).data, c.isDigit = true)
    ∧ period.id = timeperiod.getD "" := by
  have hfb : falsy (some b64) = false := h8'
  refine ⟨?_, rfl, natDigits_ne_nil now, natDigits_isDigit now, ?_⟩
  · simp [timeTravel, h1, h2, h3, h4, h5, h6, h7, h8, hfb, h9]
  · simpa using List.find?_some h4

/-- C3 witness: a concrete valid request against an always-succeeding
bucket stores exactly once under the generated key. -/
theorem C3_witness :
    timeTravel (some "medieval") (some "abc") (some "k") (some okBucket)
        demoDecode demoEditA 123
      = ⟨.success { success := true,
                    image := "/api/images/" ++ makeFilename "medieval" 123,
                    stored := true, filename := some (makeFilename "medieval" 123),
                    storageError := none,
                    timeperiod := ⟨"medieval", "Medieval", "medieval Europe"⟩ },
          [{ model := "gpt-image-1",
             image := demoDecode (stripDataUriPrefix "abc"),
             prompt := promptText ⟨"medieval", "Medieval", "medieval Europe"⟩,
             moderation := "low" }],
          [(makeFilename "medieval" 123, demoDecode "AAAA")]⟩
    ∧ makeFilename "medieval" 123
        = "timetravel-" ++ "medieval" ++ "-" ++ natToString 123 ++ ".png"
    ∧ (natToString 123).data ≠ []
    ∧ (∀ c ∈ (natToString 123).data, c.isDigit = true)
    ∧ ("medieval" : String) = (some "medieval").getD "" :=
  C3_successful_store (some "medieval") (some "abc") (some "k") okBucket
    demoDecode demoEditA 123 ⟨"medieval", "Medieval", "medieval Europe"⟩
    ⟨some [⟨some "AAAA"⟩]⟩ [⟨some "AAAA"⟩] ⟨some "AAAA"⟩ "AAAA"
    rfl rfl rfl (by decide) rfl rfl rfl rfl rfl rfl

/-- C4 counterexample: an unknown era identifier with a missing credential
yields the 500 configuration error, not an HTTP 400 error body. -/
theorem C4_counterexample :
    (timeTravel (some "atlantis") (some "x") none none demoDecode demoEditA 0).resp
      = .error 500 "OpenAI API key not configured"
          (some "Please add OPENAI_API_KEY to your environment variables")
    ∧ (timeTravel (some "atlantis") (some "x") none none demoDecode demoEditA 0).resp
        ≠ .error 400 "Invalid time period" none := by
  exact ⟨rfl, by decide⟩

/-- C4 (amended): a request whose timeperiod matches no entry of the era
table returns HTTP 400 with the invalid-time-period error body, provided
both fields are present and non-empty and the credential is configured;
with a missing credential the 500 configuration error takes precedence. -/
theorem C4_unknown_era_400
    (timeperiod imageData apiKey : Option String) (bucket : Option Bucket)
    (b64decode : String → Bin) (edit : EditRequest → Except String EditResult)
    (now : Nat)
    (h1 : falsy timeperiod = false) (h2 : falsy imageData = false)
    (h3 : falsy apiKey = false)
    (h4 : TIME_PERIODS.find? (fun p => p.id == timeperiod.getD "") = none) :
    timeTravel timeperiod imageData apiKey bucket b64decode edit now
      = ⟨.error 400 "Invalid time period" none, [], []⟩ := by
  simp [timeTravel, h1, h2, h3, h4]

/-- C4 witness: `atlantis` with a configured credential yields the 400
invalid-time-period response. -/
theorem C4_witness :
    timeTravel (some "atlantis") (some "x") (some "k") none demoDecode demoEditA 0
      = ⟨.error 400 "Invalid time period" none, [], []⟩ :=
  C4_unknown_era_400 (some "atlantis") (some "x") (some "k") none
    demoDecode demoEditA 0 rfl rfl rfl (by decide)

/-- C5: the media fetch handler returns the 500 not-configured error when
no store is bound, 404 when the key is absent, and otherwise the object
body with its stored content type, its entity tag and the one-year
`Cache-Control` directive. -/
theorem C5_fetch_handler (bk : Bucket) (filename : String) (obj : StoredObject) :
    getImage none filename = .jsonError 500 "R2 bucket not configured" none
    ∧ (bk.get filename = .ok none →
        getImage (some bk) filename = .jsonError 404 "Image not found" none)
    ∧ (bk.get filename = .ok (some obj) →
        getImage (some bk) filename
          = .ok obj.body obj.contentType obj.httpEtag "public, max-age=31536000") := by
  refine ⟨rfl, ?_, ?_⟩ <;> intro h <;> simp [getImage, h]

/-- C5 witness: on a concrete bucket holding only `a.png`, fetching with no
store gives 500, fetching `b.png` gives 404, and fetching `a.png` returns
the stored bytes, content type, etag and cache directive. -/
theorem C5_witness :
    getImage none "a.png" = .jsonError 500 "R2 bucket not configured" none
    ∧ getImage (some demoFetchBucket) "b.png"
        = .jsonError 404 "Image not found" none
    ∧ getImage (some demoFetchBucket) "a.png"
        = .ok [1, 2, 3] "image/png" "etag-1" "public, max-age=31536000" :=
  ⟨(C5_fetch_handler demoFetchBucket "a.png" demoObj).1,
   (C5_fetch_handler demoFetchBucket "b.png" demoObj).2.1 rfl,
   (C5_fetch_handler demoFetchBucket "a.png" demoObj).2.2 rfl⟩

/-- C6 counterexample: two distinct successful writes (same era, same
millisecond timestamp, different payloads) generate the same key, so the
timestamp-based naming scheme does not make every pair of distinct writes
use distinct keys. -/
theorem C6_counterexample :
    ((timeTravel (some "medieval") (some "img") (some "k") (some okBucket)
        demoDecode demoEditA 123).puts.map Prod.fst
      = (timeTravel (some "medieval") (some "img2") (some "k") (some okBucket)
          demoDecode demoEditB 123).puts.map Prod.fst)
    ∧ (timeTravel (some "medieval") (some "img") (some "k") (some okBucket)
        demoDecode demoEditA 123).puts.length = 1
    ∧ (timeTravel (some "medieval") (some "img2") (some "k") (some okBucket)
        demoDecode demoEditB 123).puts.length = 1
    ∧ (timeTravel (some "medieval") (some "img") (some "k") (some okBucket)
        demoDecode demoEditA 123).puts
      ≠ (timeTravel (some "medieval") (some "img2") (some "k") (some okBucket)
          demoDecode demoEditB 123).puts := by
  exact ⟨rfl, rfl, rfl, by decide⟩

/-- C6 (amended): the generated keys of two writes coincide exactly when
both the era identifier and the millisecond timestamp coincide; writes
differing in timestamp or in era always receive distinct keys, while two
same-era writes in the same millisecond share a key. -/
theorem C6_key_uniqueness (e₁ e₂ : String) (t₁ t₂ : Nat) :
    makeFilename e₁ t₁ = makeFilename e₂ t₂ ↔ (e₁ = e₂ ∧ t₁ = t₂) := by
  constructor
  · intro h
    have hd := congrArg String.data h
    rw [makeFilename_data, makeFilename_data] at hd
    have hd2 := List.append_cancel_left hd
    obtain ⟨he, hrest⟩ :=
      append_dash_inj _ _ _ _ (dash_not_mem_suffix t₁) (dash_not_mem_suffix t₂) hd2
    exact ⟨String.ext he, natDigits_inj (List.append_cancel_right hrest)⟩
  · rintro ⟨rfl, rfl⟩
    rfl

/-- C7 counterexample: an input beginning with the data-URI prefix
`data:image/svg+xml;base64,` is submitted to the edit call undecoded of
its prefix — the `+` in the subtype falls outside the regex's `\w+`, so
the prefix is not removed before decoding. -/
theorem C7_counterexample :
    (timeTravel (some "medieval") (some "data:image/svg+xml;base64,QQ==") (some "k")
        none demoDecode demoEditA 0).edits
      = [{ model := "gpt-image-1",
           image := demoDecode "data:image/svg+xml;base64,QQ==",
           prompt := promptText ⟨"medieval", "Medieval", "medieval Europe"⟩,
           moderation := "low" }]
    ∧ demoDecode "data:image/svg+xml;base64,QQ==" ≠ demoDecode "QQ==" := by
  exact ⟨rfl, by decide⟩

/-- C7 (amended): for every valid transform request, the payload submitted
to the edit call is the base64 decode of the input with a leading prefix of
the exact form `data:image/<word characters>;base64,` stripped (prefixes
whose subtype contains characters outside `[A-Za-z0-9_]`, such as
`image/svg+xml`, are left in place), and the edit request carries the
model `gpt-image-1`, the period-specific instruction and moderation
`low`. -/
theorem C7_edit_request
    (timeperiod imageData apiKey : Option String) (bucket : Option Bucket)
    (b64decode : String → Bin) (edit : EditRequest → Except String EditResult)
    (now : Nat) (period : TimePeriod)
    (h1 : falsy timeperiod = false) (h2 : falsy imageData = false)
    (h3 : falsy apiKey = false)
    (h4 : TIME_PERIODS.find? (fun p => p.id == timeperiod.getD "") = some period) :
    (timeTravel timeperiod imageData apiKey bucket b64decode edit now).edits
      = [{ model := "gpt-image-1",
           image := b64decode (stripDataUriPrefix (imageData.getD "")),
           prompt := promptText period, moderation := "low" }]
    ∧ (∀ sub rest : List Char, sub ≠ [] → sub.all isWordChar = true →
        stripDataUriPrefixL ("data:image/".data ++ (sub ++ (";base64,".data ++ rest)))
          = rest) := by
  refine ⟨?_, fun sub rest hne hw => stripDataUriPrefixL_strips sub rest hne hw⟩
  simp only [timeTravel, h1, h2, h3, h4]
  simp only [Bool.or_self, Bool.false_eq_true, if_false]
  split
  · rfl
  · split
    · rfl
    · split
      · rfl
      · split
        · rfl
        · split
          · rfl
          · split
            · rfl
            · rfl

/-- C7 witness: a concrete request whose image data carries a
`data:image/png;base64,` prefix submits exactly one edit call whose
payload is the decode of the bare base64 part. -/
theorem C7_witness :
    (timeTravel (some "medieval") (some "data:image/png;base64,QQ==") (some "k")
        none demoDecode demoEditA 0).edits
      = [{ model := "gpt-image-1",
           image := demoDecode "QQ==",
           prompt := promptText ⟨"medieval", "Medieval", "medieval Europe"⟩,
           moderation := "low" }]
    ∧ (∀ sub rest : List Char, sub ≠ [] → sub.all isWordChar = true →
        stripDataUriPrefixL ("data:image/".data ++ (sub ++ (";base64,".data ++ rest)))
          = rest) :=
  C7_edit_request (some "medieval") (some "data:image/png;base64,QQ==") (some "k")
    none demoDecode demoEditA 0 ⟨"medieval", "Medieval", "medieval Europe"⟩
    rfl rfl rfl (by decide)

/-- C8: every valid era identifier occurs exactly once in the time-periods
listing, and every entry carrying it has a non-empty display name and a
non-empty prompt fragment. -/
theorem C8_time_periods_listing (id : String)
    (h : (timePeriodsHandler.any (fun p => p.id == id)) = true) :
    (timePeriodsHandler.filter (fun p => p.id == id)).length = 1
    ∧ ∀ p ∈ timePeriodsHandler, p.id = id → (p.name ≠ "" ∧ p.prompt ≠ "") := by
  obtain ⟨p, hp, hpid⟩ := List.any_eq_true.mp h
  have hid : p.id = id := by simpa using hpid
  subst hid
  refine ⟨(timePeriods_entries_ok p hp).1, fun q hq _ => ?_⟩
  exact ⟨(timePeriods_entries_ok q hq).2.1, (timePeriods_entries_ok q hq).2.2⟩

/-- C8 witness: `medieval` is a valid era identifier, occurs exactly once,
and its entry has a non-empty name and prompt. -/
theorem C8_witness :
    (timePeriodsHandler.filter (fun p => p.id == "medieval")).length = 1
    ∧ ∀ p ∈ timePeriodsHandler, p.id = "medieval"
        → (p.name ≠ "" ∧ p.prompt ≠ "") :=
  C8_time_periods_listing "medieval" (by decide)

/-- C9: with a bound store whose listing succeeds, the media list handler
projects each object to `{key, url, size, uploadedAt}` with
`url = /api/images/<key>` and returns a count equal to the length of the
returned array. -/
theorem C9_list_images (bk : Bucket) (objs : List ObjMeta)
    (h : bk.list = .ok objs) :
    listImages (some bk)
      = .ok (objs.map (fun o => ⟨o.key, "/api/images/" ++ o.key, o.size, o.uploaded⟩))
          (objs.map (fun o : ObjMeta =>
            (⟨o.key, "/api/images/" ++ o.key, o.size, o.uploaded⟩ : ImageEntry))).length
    ∧ ∀ e ∈ (objs.map (fun o : ObjMeta =>
        (⟨o.key, "/api/images/" ++ o.key, o.size, o.uploaded⟩ : ImageEntry))),
        e.url = "/api/images/" ++ e.key := by
  constructor
  · simp [listImages, h]
  · intro e he
    obtain ⟨o, ho, rfl⟩ := List.mem_map.mp he
    rfl

/-- C9 witness: on a concrete two-object bucket the listing returns both
projections and a count of 2. -/
theorem C9_witness :
    listImages (some demoListBucket)
      = .ok [⟨"k1.png", "/api/images/" ++ "k1.png", 10, 111⟩,
             ⟨"k2.png", "/api/images/" ++ "k2.png", 20, 222⟩]
          ([(⟨"k1.png", "/api/images/" ++ "k1.png", 10, 111⟩ : ImageEntry),
            ⟨"k2.png", "/api/images/" ++ "k2.png", 20, 222⟩]).length
    ∧ ∀ e ∈ [(⟨"k1.png", "/api/images/" ++ "k1.png", 10, 111⟩ : ImageEntry),
             ⟨"k2.png", "/api/images/" ++ "k2.png", 20, 222⟩],
        e.url = "/api/images/" ++ e.key :=
  C9_list_images demoListBucket [⟨"k1.png", 10, 111⟩, ⟨"k2.png", 20, 222⟩] rfl

/-- C10: a transform request in which timeperiod or imageData is absent or
falsy (the empty string) returns HTTP 400 with the missing-parameters
error, issuing no edit call and no storage write, whatever the credential,
the store binding and the external service do. -/
theorem C10_falsy_fields_short_circuit
    (timeperiod imageData apiKey : Option String) (bucket : Option Bucket)
    (b64decode : String → Bin) (edit : EditRequest → Except String EditResult)
    (now : Nat)
    (h : falsy timeperiod = true ∨ falsy imageData = true) :
    timeTravel timeperiod imageData apiKey bucket b64decode edit now
      = ⟨.error 400 "Missing required parameters" none, [], []⟩ := by
  rcases h with h | h <;> simp [timeTravel, h]

/-- C10 witness: an empty timeperiod string short-circuits to the 400
missing-parameters response with no edit call and no write. -/
theorem C10_witness :
    timeTravel (some "") (some "x") (some "k") (some okBucket)
        demoDecode demoEditA 0
      = ⟨.error 400 "Missing required parameters" none, [], []⟩ :=
  C10_falsy_fields_short_circuit (some "") (some "x") (some "k") (some okBucket)
    demoDecode demoEditA 0 (Or.inl rfl)

end TTCamera
